import Mathlib

/-!
Verification development for the bzImage loader/executor
(src/src/arch/i386/image/bzimage.c of the vendor-ccboot-ipxe repository).

The C code is shallowly embedded: machine integers are modelled as Nat with
an explicit mod 2 ^ w wherever the C arithmetic can wrap, memory writes are
modelled as an explicit effect trace, and fallible functions return Except.
Constants and the fixed binary header layout come from the boot-protocol
header file (bzimage.h), which is not part of the sources under src/;
those definitions are marked as modelled from the spec.
-/

/-- Modelled from the spec: fixed byte offset of the boot header inside the
image buffer (BZI_HDR_OFFSET from bzimage.h, which is not under src/). -/
def BZI_HDR_OFFSET : Nat := 0x1f1

/-- Modelled from the spec: magic signature value (BZI_SIGNATURE, the ASCII
bytes HdrS read little-endian). -/
def BZI_SIGNATURE : Nat := 0x53726448

/-- Modelled from the spec: load-high flag bit in loadflags (BZI_LOAD_HIGH). -/
def BZI_LOAD_HIGH : Nat := 0x01

/-- Modelled from the spec: fixed physical base for high-loaded kernels
(BZI_LOAD_HIGH_ADDR). -/
def BZI_LOAD_HIGH_ADDR : Nat := 0x100000

/-- Modelled from the spec: fixed physical base for low-loaded kernels
(BZI_LOAD_LOW_ADDR). -/
def BZI_LOAD_LOW_ADDR : Nat := 0x10000

/-- Modelled from the spec: the kernel-can-use-heap flag bit
(BZI_CAN_USE_HEAP). -/
def BZI_CAN_USE_HEAP : Nat := 0x80

/-- Modelled from the spec: enumerated video mode for the literal normal
(BZI_VID_MODE_NORMAL). -/
def BZI_VID_MODE_NORMAL : Nat := 0xffff

/-- Modelled from the spec: enumerated video mode for the literal ext
(BZI_VID_MODE_EXT). -/
def BZI_VID_MODE_EXT : Nat := 0xfffe

/-- Modelled from the spec: enumerated video mode for the literal ask
(BZI_VID_MODE_ASK). -/
def BZI_VID_MODE_ASK : Nat := 0xfffd

/-- Modelled from the spec: fixed default maximum initrd address used for
header versions below 0x0203 (BZI_INITRD_MAX). -/
def BZI_INITRD_MAX : Nat := 0x37ffffff

/-- Modelled from the spec: offset of the legacy command-line side record
(BZI_CMDLINE_OFFSET). -/
def BZI_CMDLINE_OFFSET : Nat := 0x90

/-- Modelled from the spec: magic marker of the legacy command-line side
record (BZI_CMDLINE_MAGIC). -/
def BZI_CMDLINE_MAGIC : Nat := 0xa33f

/-- Modelled from the spec: fixed maximum command line size, in bytes,
terminator included (BZI_CMDLINE_SIZE). -/
def BZI_CMDLINE_SIZE : Nat := 256

/-- Modelled from the spec: fixed stack/heap reservation added to the
real-mode portion (BZI_STACK_SIZE). -/
def BZI_STACK_SIZE : Nat := 0x1000

/-- Modelled from the spec: loader identity tag written into the header
(BZI_LOADER_TYPE_ETHERBOOT). -/
def BZI_LOADER_TYPE_ETHERBOOT : Nat := 0x40

/-- Modelled from the spec: byte size of struct bzimage_header, the packed
fixed-offset record of the boot protocol (offsets 0x1f1 to 0x230). -/
def BZIMAGE_HEADER_SIZE : Nat := 63

/-- Error kinds of the loader, the value-based images of the C errno codes:
ENOEXEC is formatError, ENOTSUP is unsupportedVersion, a prep_segment
failure is segmentError, ENOBUFS is outOfMemory and ECANCELED (the
assert-unreachable return after the jump) is impossibleError. -/
inductive BzError where
  | formatError
  | unsupportedVersion
  | segmentError
  | outOfMemory
  | impossibleError
deriving DecidableEq

/-- Image type tags relevant to the loader: the bzImage type that
bzimage_load binds, the initrd type searched for by bzimage_exec, and any
other type. -/
inductive ImageTypeTag where
  | bzimage
  | initrd
  | other
deriving DecidableEq

/-- The external image object: a byte buffer (data) with its length field
(len), the physical address of the buffer (phys, the value of
user_to_phys(image.data, 0)), the free-form command line, the type binding
and the opaque private-data slot. data and len are separate fields, as in
the C struct image. -/
structure Image where
  data : List Nat
  len : Nat
  phys : Nat
  cmdline : Option (List Char)
  typ : Option ImageTypeTag
  priv : Nat
deriving DecidableEq

/-- Little-endian read of n bytes at offset off from a byte list; each
entry is reduced mod 256 so that the list is read as bytes. -/
def readLE (data : List Nat) (off n : Nat) : Nat :=
  (List.range n).foldr (fun i acc => acc * 256 + data.getD (off + i) 0 % 256) 0

/-- The decoded struct bzimage_header. Field layout is modelled from the
spec (the packed boot-protocol record defined in bzimage.h, not under
src/): byte offsets relative to BZI_HDR_OFFSET are given in decodeHeader. -/
structure BzimageHeader where
  setup_sects : Nat
  root_flags : Nat
  syssize : Nat
  swap_dev : Nat
  ram_size : Nat
  vid_mode : Nat
  root_dev : Nat
  boot_flag : Nat
  jump : Nat
  header : Nat
  version : Nat
  realmode_swtch : Nat
  start_sys : Nat
  kernel_version : Nat
  type_of_loader : Nat
  loadflags : Nat
  setup_move_size : Nat
  code32_start : Nat
  ramdisk_image : Nat
  ramdisk_size : Nat
  bootsect_kludge : Nat
  heap_end_ptr : Nat
  pad1 : Nat
  cmd_line_ptr : Nat
  initrd_addr_max : Nat
deriving DecidableEq

/-- Modelled from the spec: decode of the packed header record at its fixed
offset in the image buffer (copy_from_user of sizeof(bzimage_header) bytes
at BZI_HDR_OFFSET, then the packed little-endian field layout). -/
def decodeHeader (data : List Nat) : BzimageHeader :=
  { setup_sects := readLE data (BZI_HDR_OFFSET + 0) 1,
    root_flags := readLE data (BZI_HDR_OFFSET + 1) 2,
    syssize := readLE data (BZI_HDR_OFFSET + 3) 2,
    swap_dev := readLE data (BZI_HDR_OFFSET + 5) 2,
    ram_size := readLE data (BZI_HDR_OFFSET + 7) 2,
    vid_mode := readLE data (BZI_HDR_OFFSET + 9) 2,
    root_dev := readLE data (BZI_HDR_OFFSET + 11) 2,
    boot_flag := readLE data (BZI_HDR_OFFSET + 13) 2,
    jump := readLE data (BZI_HDR_OFFSET + 15) 2,
    header := readLE data (BZI_HDR_OFFSET + 17) 4,
    version := readLE data (BZI_HDR_OFFSET + 21) 2,
    realmode_swtch := readLE data (BZI_HDR_OFFSET + 23) 4,
    start_sys := readLE data (BZI_HDR_OFFSET + 27) 2,
    kernel_version := readLE data (BZI_HDR_OFFSET + 29) 2,
    type_of_loader := readLE data (BZI_HDR_OFFSET + 31) 1,
    loadflags := readLE data (BZI_HDR_OFFSET + 32) 1,
    setup_move_size := readLE data (BZI_HDR_OFFSET + 33) 2,
    code32_start := readLE data (BZI_HDR_OFFSET + 35) 4,
    ramdisk_image := readLE data (BZI_HDR_OFFSET + 39) 4,
    ramdisk_size := readLE data (BZI_HDR_OFFSET + 43) 4,
    bootsect_kludge := readLE data (BZI_HDR_OFFSET + 47) 4,
    heap_end_ptr := readLE data (BZI_HDR_OFFSET + 51) 2,
    pad1 := readLE data (BZI_HDR_OFFSET + 53) 2,
    cmd_line_ptr := readLE data (BZI_HDR_OFFSET + 55) 4,
    initrd_addr_max := readLE data (BZI_HDR_OFFSET + 59) 4 }

/-- struct bzimage_load_context from bzimage.c. -/
structure BzimageLoadContext where
  rm_kernel_seg : Nat
  rm_kernel : Nat
  rm_filesz : Nat
  rm_heap : Nat
  rm_cmdline : Nat
  rm_memsz : Nat
  pm_kernel : Nat
  pm_sz : Nat
deriving DecidableEq

/-- struct bzimage_exec_context from bzimage.c. vid_mode is an unsigned
int, mem_limit a uint64, the ramdisk fields physaddr_t. -/
structure BzimageExecContext where
  rm_kernel_seg : Nat
  rm_kernel : Nat
  rm_heap : Nat
  rm_cmdline : Nat
  vid_mode : Nat
  mem_limit : Nat
  ramdisk_image : Nat
  ramdisk_size : Nat
deriving DecidableEq

/-- Memory writes and platform calls performed by the loader, recorded as
an explicit effect trace: successful segment preparation (zero-fill),
the real-mode / protected-mode / initrd payload copies, the command-line
copy, the header writes and the final shutdown plus real-mode jump. -/
inductive Effect where
  | prepSeg (addr filesz memsz : Nat)
  | copyRM (dst len : Nat)
  | copyPM (dst len : Nat)
  | copyInitrd (dst len : Nat)
  | copyCmdline (base off : Nat) (bytes : List Char)
  | writeHeader (addr : Nat) (hdr : BzimageHeader)
  | writeCmdlineRecord (addr magicv offv : Nat)
  | shutdownCalled
  | kernelJump (cs ip sp : Nat)
deriving DecidableEq

/-- Modelled from the spec: the C library isspace predicate used by the
string-to-integer conversion (space and the standard control whitespace). -/
def bz_isspace (c : Char) : Bool :=
  c == ' ' || c == '\t' || c == '\n' || c == '\x0b' || c == '\x0c' || c == '\r'

/-- Modelled from the spec: numeric value of a character as a digit, with
36 (an always-out-of-range value) for non-alphanumeric characters. -/
def bz_digit_value (c : Char) : Nat :=
  if '0' ≤ c ∧ c ≤ '9' then c.toNat - '0'.toNat
  else if 'a' ≤ c ∧ c ≤ 'z' then c.toNat - 'a'.toNat + 10
  else if 'A' ≤ c ∧ c ≤ 'Z' then c.toNat - 'A'.toNat + 10
  else 36

/-- Modelled from the spec: digit-accumulation loop of the C library
strtoul used by the command-line processor; the accumulator is an unsigned
long (32-bit), hence the mod 2 ^ 32. Returns the value and the rest of the
string (the end pointer). -/
def strtoul_digits (base : Nat) : List Char → Nat → Nat × List Char
  | [], acc => (acc, [])
  | c :: rest, acc =>
    if bz_digit_value c < base then
      strtoul_digits base rest ((acc * base + bz_digit_value c) % 2 ^ 32)
    else (acc, c :: rest)

/-- Modelled from the spec: the C library strtoul as used by the
command-line processor. Skips leading whitespace; base 0 selects the base
from the prefix (0x or 0X for 16, a leading 0 for 8, otherwise 10);
returns the parsed unsigned long and the rest of the string. -/
def strtoul (s : List Char) (base : Nat) : Nat × List Char :=
  let s := s.dropWhile bz_isspace
  if base = 0 then
    match s with
    | '0' :: c :: rest =>
      if c = 'x' ∨ c = 'X' then strtoul_digits 16 rest 0
      else strtoul_digits 8 (c :: rest) 0
    | '0' :: [] => strtoul_digits 8 [] 0
    | _ => strtoul_digits 10 s 0
  else strtoul_digits base s 0

/-- Modelled from the spec: the C library strstr; returns the suffix of the
haystack starting at the first occurrence of the pattern, or none. -/
def strstr : List Char → List Char → Option (List Char)
  | [], pat => if pat.isPrefixOf [] then some [] else none
  | c :: rest, pat =>
    if pat.isPrefixOf (c :: rest) then some (c :: rest) else strstr rest pat

/-- The fallthrough switch on the character after the mem= number in
bzimage_parse_cmdline: G and g fall through M and m, which fall through
K and k, each step shifting left by 10 bits; space, the terminator and any
strange character leave the value unshifted. mem_limit is a uint64 and the
value is an unsigned long below 2 ^ 32, so the shifted result is below
2 ^ 62 and cannot wrap. -/
def bzimage_mem_suffix (v : Nat) (c : Char) : Nat :=
  if c = 'G' ∨ c = 'g' then ((v <<< 10) <<< 10) <<< 10
  else if c = 'M' ∨ c = 'm' then (v <<< 10) <<< 10
  else if c = 'K' ∨ c = 'k' then v <<< 10
  else v

/-- bzimage_parse_cmdline from bzimage.c: scans the command line for vga=
and mem= and updates the execution context. The vga= value is compared as
a whole string against normal, ext and ask, otherwise parsed as
hexadecimal; the mem= value is parsed with base 0 and scaled by the
fallthrough suffix switch. Always succeeds (the C function returns 0). -/
def bzimage_parse_cmdline (exec_ctx : BzimageExecContext) (cmdline : List Char) :
    BzimageExecContext :=
  let exec_ctx :=
    match strstr cmdline ("vga=".data) with
    | none => exec_ctx
    | some hit =>
      let vga := hit.drop 4
      if vga = "normal".data then { exec_ctx with vid_mode := BZI_VID_MODE_NORMAL }
      else if vga = "ext".data then { exec_ctx with vid_mode := BZI_VID_MODE_EXT }
      else if vga = "ask".data then { exec_ctx with vid_mode := BZI_VID_MODE_ASK }
      else { exec_ctx with vid_mode := (strtoul vga 16).1 }
  match strstr cmdline ("mem=".data) with
  | none => exec_ctx
  | some hit =>
    let mem := hit.drop 4
    let parsed := strtoul mem 0
    { exec_ctx with
        mem_limit := bzimage_mem_suffix parsed.1 (parsed.2.headD '\x00') }

/-- bzimage_set_cmdline from bzimage.c: copies min(strlen + 1,
BZI_CMDLINE_SIZE) bytes of the command line (terminator included in the
byte count, drawn from the string followed by its NUL) to offset
rm_cmdline of the real-mode segment. Returns the destination offset and
the copied bytes; never fails (the C function returns 0). -/
def bzimage_set_cmdline (exec_ctx : BzimageExecContext) (cmdline : List Char) :
    Nat × List Char :=
  let cmdline_len := cmdline.length + 1
  let cmdline_len := if BZI_CMDLINE_SIZE < cmdline_len then BZI_CMDLINE_SIZE else cmdline_len
  (exec_ctx.rm_cmdline, (cmdline ++ ['\x00']).take cmdline_len)

/-- The body of the descending search loop of bzimage_load_initrd, with an
explicit fuel argument so that the definition is structurally recursive
and evaluates in the kernel. Each iteration decreases start by 0x100000
and the loop ends no later than start reaching the exclusion bound, so any
fuel of at least start steps is enough; when the fuel runs out the loop
can only be at start = 0, where the bound check fails the search, and the
fuel-exhaustion result is that same failure. The loop checks, in source
order: the exclusion bound (fail with outOfMemory), the fit under the
memory limit (continue), and segment preparation (continue on failure,
stop with the found address on success). The additions of physaddr_t and
size_t values are 32-bit, hence the mod 2 ^ 32. -/
def bzimage_initrd_search_go (prep : Nat → Nat → Nat → Bool) (L C bound : Nat) :
    Nat → Nat → Except BzError Nat
  | 0, _ => Except.error BzError.outOfMemory
  | fuel + 1, start =>
    if start ≤ bound then Except.error BzError.outOfMemory
    else if C < (start + L) % 2 ^ 32 then
      bzimage_initrd_search_go prep L C bound fuel (start - 0x100000)
    else if prep start L L then Except.ok start
    else bzimage_initrd_search_go prep L C bound fuel (start - 0x100000)

/-- The descending search of bzimage_load_initrd, starting with fuel equal
to the start address (always sufficient, see bzimage_initrd_search_eq). -/
def bzimage_initrd_search (prep : Nat → Nat → Nat → Bool)
    (L C bound start : Nat) : Except BzError Nat :=
  bzimage_initrd_search_go prep L C bound start start

/-- bzimage_load_initrd from bzimage.c. start is the physical location of
the initrd buffer; if the initrd fits in place under the memory limit it
is used in situ with no copy, otherwise the loop searches downward from
start in 0x100000 steps, with the exclusion bound BZI_LOAD_HIGH_ADDR plus
the kernel image length. Returns the updated execution context (ramdisk
location recorded) together with the effect trace of the relocation; on
failure nothing has been written. -/
def bzimage_load_initrd (prep : Nat → Nat → Nat → Bool) (imageLen : Nat)
    (exec_ctx : BzimageExecContext) (initrd : Image) :
    Except BzError BzimageExecContext × List Effect :=
  let start := initrd.phys
  if (start + initrd.len) % 2 ^ 32 ≤ exec_ctx.mem_limit then
    (Except.ok { exec_ctx with ramdisk_image := start, ramdisk_size := initrd.len }, [])
  else
    match bzimage_initrd_search prep initrd.len exec_ctx.mem_limit
        ((BZI_LOAD_HIGH_ADDR + imageLen) % 2 ^ 32) start with
    | Except.error e => (Except.error e, [])
    | Except.ok s =>
      (Except.ok { exec_ctx with ramdisk_image := s, ramdisk_size := initrd.len },
       [Effect.prepSeg s initrd.len initrd.len, Effect.copyInitrd s initrd.len])

/-- The execution context as initialised by bzimage_exec before command
line parsing: segment base recovered from the image private data, heap and
command line offsets at heap_end_ptr + 0x200, video mode from the header,
and the memory limit from initrd_addr_max + 1 (32-bit arithmetic on the
uint32 field, hence the mod 2 ^ 32) for versions from 0x0203 on, else
BZI_INITRD_MAX + 1. -/
def bzimage_exec_ctx0 (image : Image) (bzhdr : BzimageHeader) : BzimageExecContext :=
  { rm_kernel_seg := image.priv,
    rm_kernel := image.priv * 16,
    rm_heap := bzhdr.heap_end_ptr + 0x200,
    rm_cmdline := bzhdr.heap_end_ptr + 0x200,
    vid_mode := bzhdr.vid_mode,
    mem_limit := if 0x0203 ≤ bzhdr.version then (bzhdr.initrd_addr_max + 1) % 2 ^ 32
                 else BZI_INITRD_MAX + 1,
    ramdisk_image := 0,
    ramdisk_size := 0 }

/-- Result of one bzimage_exec call: the effect trace, the returned error
(none when the non-returning jump was reached) and the final execution
context. -/
structure ExecResult where
  effects : List Effect
  err : Option BzError
  ctx : BzimageExecContext
deriving DecidableEq

/-- bzimage_exec from bzimage.c. storedHdr is the header currently stored
at BZI_HDR_OFFSET of the loaded real-mode segment (written there by
bzimage_load); images is the image set searched for the first image of
initrd type. The call parses the command line, copies it into the
segment, relocates the initrd if one exists (propagating its error, in
which case the header rewrite, the shutdown call and the jump do not
happen), then rewrites the video mode and ramdisk header fields (uint16
and uint32 stores), writes the header back, shuts down and jumps to
segment + 0x20 with offset 0 and stack pointer rm_heap. -/
def bzimage_exec (prep : Nat → Nat → Nat → Bool) (image : Image)
    (images : List Image) (storedHdr : BzimageHeader) : ExecResult :=
  let cmdline := image.cmdline.getD []
  let exec_ctx := bzimage_exec_ctx0 image storedHdr
  let exec_ctx := bzimage_parse_cmdline exec_ctx cmdline
  let cmdCopy := bzimage_set_cmdline exec_ctx cmdline
  let effs := [Effect.copyCmdline exec_ctx.rm_kernel cmdCopy.1 cmdCopy.2]
  let finish := fun (exec_ctx : BzimageExecContext) (effs : List Effect) =>
    let bzhdr := { storedHdr with
        vid_mode := exec_ctx.vid_mode % 2 ^ 16,
        ramdisk_image := exec_ctx.ramdisk_image % 2 ^ 32,
        ramdisk_size := exec_ctx.ramdisk_size % 2 ^ 32 }
    { effects := effs ++
        [Effect.writeHeader (exec_ctx.rm_kernel + BZI_HDR_OFFSET) bzhdr,
         Effect.shutdownCalled,
         Effect.kernelJump (exec_ctx.rm_kernel_seg + 0x20) 0 exec_ctx.rm_heap],
      err := none,
      ctx := exec_ctx }
  match images.find? (fun i => decide (i.typ = some ImageTypeTag.initrd)) with
  | none => finish exec_ctx effs
  | some initrd =>
    match bzimage_load_initrd prep image.len exec_ctx initrd with
    | (Except.error e, effs2) =>
      { effects := effs ++ effs2, err := some e, ctx := exec_ctx }
    | (Except.ok exec_ctx2, effs2) => finish exec_ctx2 (effs ++ effs2)

/-- The real-mode portion size computed by bzimage_load_header: the C
expression ((bzhdr->setup_sects ? bzhdr->setup_sects : 4) + 1) << 9. -/
def bzimage_rm_filesz (bzhdr : BzimageHeader) : Nat :=
  ((if bzhdr.setup_sects ≠ 0 then bzhdr.setup_sects else 4) + 1) <<< 9

/-- bzimage_load_header from bzimage.c: length check against
BZI_HDR_OFFSET plus the header size, signature check, minimum version
check (0x0200), real-mode size computation and truncation check, then the
protected-mode base selected by the load-high flag and the remaining
length. Pure: produces the load context and the decoded header, touching
no memory. -/
def bzimage_load_header (image : Image) :
    Except BzError (BzimageLoadContext × BzimageHeader) :=
  if image.len < BZI_HDR_OFFSET + BZIMAGE_HEADER_SIZE then
    Except.error BzError.formatError
  else
    let bzhdr := decodeHeader image.data
    if bzhdr.header ≠ BZI_SIGNATURE then Except.error BzError.formatError
    else if bzhdr.version < 0x0200 then Except.error BzError.unsupportedVersion
    else
      let rm_filesz := bzimage_rm_filesz bzhdr
      if image.len < rm_filesz then Except.error BzError.formatError
      else
        Except.ok
          ({ rm_kernel_seg := 0x1000,
             rm_kernel := 0x1000 * 16,
             rm_filesz := rm_filesz,
             rm_heap := 0,
             rm_cmdline := 0,
             rm_memsz := rm_filesz,
             pm_kernel := if bzhdr.loadflags &&& BZI_LOAD_HIGH ≠ 0 then BZI_LOAD_HIGH_ADDR
                          else BZI_LOAD_LOW_ADDR,
             pm_sz := image.len - rm_filesz }, bzhdr)

/-- bzimage_load_real from bzimage.c: grows the in-memory size by the
stack/heap and command-line reservations, records the heap and command
line offsets, prepares the real-mode segment (failure aborts with a
segment error and no write) and copies the real-mode portion. -/
def bzimage_load_real (prep : Nat → Nat → Nat → Bool) (image : Image)
    (load_ctx : BzimageLoadContext) :
    Except BzError (BzimageLoadContext × List Effect) :=
  let load_ctx := { load_ctx with rm_memsz := load_ctx.rm_memsz + BZI_STACK_SIZE }
  let load_ctx := { load_ctx with rm_heap := load_ctx.rm_memsz }
  let load_ctx := { load_ctx with rm_cmdline := load_ctx.rm_memsz }
  let load_ctx := { load_ctx with rm_memsz := load_ctx.rm_memsz + BZI_CMDLINE_SIZE }
  if prep load_ctx.rm_kernel load_ctx.rm_filesz load_ctx.rm_memsz then
    Except.ok (load_ctx,
      [Effect.prepSeg load_ctx.rm_kernel load_ctx.rm_filesz load_ctx.rm_memsz,
       Effect.copyRM load_ctx.rm_kernel load_ctx.rm_filesz])
  else Except.error BzError.segmentError

/-- bzimage_load_non_real from bzimage.c: prepares the protected-mode
segment (file and memory size both pm_sz) and copies the remaining
portion; failure aborts with a segment error and no write. -/
def bzimage_load_non_real (prep : Nat → Nat → Nat → Bool) (image : Image)
    (load_ctx : BzimageLoadContext) : Except BzError (List Effect) :=
  if prep load_ctx.pm_kernel load_ctx.pm_sz load_ctx.pm_sz then
    Except.ok [Effect.prepSeg load_ctx.pm_kernel load_ctx.pm_sz load_ctx.pm_sz,
               Effect.copyPM load_ctx.pm_kernel load_ctx.pm_sz]
  else Except.error BzError.segmentError

/-- bzimage_write_header from bzimage.c (load-time entry point): sets the
loader identity tag; from version 0x0201 on records the heap end pointer
(a uint16 store, hence the mod 2 ^ 16) and sets the can-use-heap flag;
from version 0x0202 on records the physical command line pointer in the
header, otherwise writes the legacy magic-plus-offset side record at
BZI_CMDLINE_OFFSET (uint16 stores) and records the legacy setup move size
(uint16). Returns the header as written back at BZI_HDR_OFFSET and the
write effects in source order. -/
def bzimage_write_header (load_ctx : BzimageLoadContext) (bzhdr : BzimageHeader) :
    BzimageHeader × List Effect :=
  let bzhdr := { bzhdr with type_of_loader := BZI_LOADER_TYPE_ETHERBOOT }
  let bzhdr :=
    if 0x0201 ≤ bzhdr.version then
      { bzhdr with heap_end_ptr := (load_ctx.rm_heap - 0x200) % 2 ^ 16,
                   loadflags := bzhdr.loadflags ||| BZI_CAN_USE_HEAP }
    else bzhdr
  if 0x0202 ≤ bzhdr.version then
    let bzhdr := { bzhdr with
        cmd_line_ptr := load_ctx.rm_kernel + load_ctx.rm_cmdline }
    (bzhdr, [Effect.writeHeader (load_ctx.rm_kernel + BZI_HDR_OFFSET) bzhdr])
  else
    let bzhdr := { bzhdr with setup_move_size := load_ctx.rm_memsz % 2 ^ 16 }
    (bzhdr,
     [Effect.writeCmdlineRecord (load_ctx.rm_kernel + BZI_CMDLINE_OFFSET)
        BZI_CMDLINE_MAGIC (load_ctx.rm_cmdline % 2 ^ 16),
      Effect.writeHeader (load_ctx.rm_kernel + BZI_HDR_OFFSET) bzhdr])

/-- Result of a successful bzimage_load: the final load context, the
header as written into the loaded segment, and the legacy side record
offset if one was written. -/
structure LoadResult where
  ctx : BzimageLoadContext
  storedHdr : BzimageHeader
deriving DecidableEq

/-- bzimage_load from bzimage.c: parses the header (an error here returns
with the image untouched and nothing written); binds the bzImage type to
the image if it had none, valid or otherwise; loads the real-mode then the
protected-mode portion (an error here keeps the type binding but records
no private data); updates and writes out the header; and only on full
success records the real-mode segment in the image private data field.
Returns the updated image, the effect trace and the result. -/
def bzimage_load (prep : Nat → Nat → Nat → Bool) (image : Image) :
    Image × List Effect × Except BzError LoadResult :=
  match bzimage_load_header image with
  | Except.error e => (image, [], Except.error e)
  | Except.ok (load_ctx, bzhdr) =>
    let image1 := if image.typ = none then { image with typ := some ImageTypeTag.bzimage }
                  else image
    match bzimage_load_real prep image load_ctx with
    | Except.error e => (image1, [], Except.error e)
    | Except.ok (load_ctx, effsRM) =>
      match bzimage_load_non_real prep image load_ctx with
      | Except.error e => (image1, effsRM, Except.error e)
      | Except.ok effsPM =>
        let written := bzimage_write_header load_ctx bzhdr
        let image2 := { image1 with priv := load_ctx.rm_kernel_seg }
        (image2, effsRM ++ effsPM ++ written.2,
         Except.ok { ctx := load_ctx, storedHdr := written.1 })

set_option maxRecDepth 100000

deriving instance DecidableEq for Except

/-- The fuel argument of the search loop is irrelevant as soon as it is at
least the start address. -/
theorem bzimage_initrd_search_go_irrel (prep : Nat → Nat → Nat → Bool) (L C bound : Nat) :
    ∀ start fuel fuel2, start ≤ fuel → start ≤ fuel2 →
      bzimage_initrd_search_go prep L C bound fuel start =
      bzimage_initrd_search_go prep L C bound fuel2 start := by
  intro start
  induction start using Nat.strong_induction_on with
  | _ start ih =>
    intro fuel fuel2 h h2
    match fuel, fuel2 with
    | 0, 0 => rfl
    | 0, f2 + 1 =>
      have hs : start = 0 := Nat.le_zero.mp h
      subst hs
      simp [bzimage_initrd_search_go]
    | f + 1, 0 =>
      have hs : start = 0 := Nat.le_zero.mp h2
      subst hs
      simp [bzimage_initrd_search_go]
    | f + 1, f2 + 1 =>
      simp only [bzimage_initrd_search_go]
      by_cases hb : start ≤ bound
      · simp [hb]
      · have hlt : start - 0x100000 < start := by omega
        have hf : start - 0x100000 ≤ f := by omega
        have hf2 : start - 0x100000 ≤ f2 := by omega
        simp only [hb, if_false]
        by_cases hfit : C < (start + L) % 2 ^ 32
        · simp only [hfit, if_true]
          exact ih _ hlt _ _ hf hf2
        · simp only [hfit, if_false]
          by_cases hp : prep start L L = true
          · simp [hp]
          · simp only [Bool.not_eq_true] at hp
            simp only [hp, Bool.false_eq_true, if_false]
            exact ih _ hlt _ _ hf hf2

/-- The search at start address 0 fails at once: 0 is at or below any
exclusion bound. -/
theorem bzimage_initrd_search_zero (prep : Nat → Nat → Nat → Bool) (L C bound : Nat) :
    bzimage_initrd_search prep L C bound 0 = Except.error BzError.outOfMemory := by
  unfold bzimage_initrd_search
  rfl

/-- One step of the search at a positive start address. -/
theorem bzimage_initrd_search_succ (prep : Nat → Nat → Nat → Bool) (L C bound s : Nat) :
    bzimage_initrd_search prep L C bound (s + 1) =
      if s + 1 ≤ bound then Except.error BzError.outOfMemory
      else if C < (s + 1 + L) % 2 ^ 32 then
        bzimage_initrd_search prep L C bound (s + 1 - 0x100000)
      else if prep (s + 1) L L then Except.ok (s + 1)
      else bzimage_initrd_search prep L C bound (s + 1 - 0x100000) := by
  show bzimage_initrd_search_go prep L C bound (s + 1) (s + 1) = _
  rw [bzimage_initrd_search_go]
  have hf : s + 1 - 0x100000 ≤ s := by omega
  rw [bzimage_initrd_search_go_irrel prep L C bound (s + 1 - 0x100000) s
        (s + 1 - 0x100000) hf le_rfl]
  rfl

/-- Unfolding equation of the descending search: it is exactly the C loop,
checking the exclusion bound, then the fit under the memory limit, then
segment preparation, and stepping down by 0x100000 otherwise. -/
theorem bzimage_initrd_search_eq (prep : Nat → Nat → Nat → Bool) (L C bound start : Nat) :
    bzimage_initrd_search prep L C bound start =
      if start ≤ bound then Except.error BzError.outOfMemory
      else if C < (start + L) % 2 ^ 32 then
        bzimage_initrd_search prep L C bound (start - 0x100000)
      else if prep start L L then Except.ok start
      else bzimage_initrd_search prep L C bound (start - 0x100000) := by
  match start with
  | 0 =>
    rw [if_pos (Nat.zero_le bound)]
    exact bzimage_initrd_search_zero prep L C bound
  | s + 1 => exact bzimage_initrd_search_succ prep L C bound s

/-- Every address the search accepts lies on the descending chain from the
start address (a whole number of 0x100000 steps below it), lies strictly
above the exclusion bound, fits under the memory limit, and passed segment
preparation. -/
theorem bzimage_initrd_search_ok_spec (prep : Nat → Nat → Nat → Bool) (L C bound : Nat) :
    ∀ start s, bzimage_initrd_search prep L C bound start = Except.ok s →
      (∃ k, s = start - k * 0x100000) ∧ bound < s ∧ (s + L) % 2 ^ 32 ≤ C ∧
        prep s L L = true := by
  intro start
  induction start using Nat.strong_induction_on with
  | _ start ih =>
    intro s hok
    rw [bzimage_initrd_search_eq] at hok
    by_cases hb : start ≤ bound
    · rw [if_pos hb] at hok
      exact Except.noConfusion hok
    · rw [if_neg hb] at hok
      have hlt : start - 0x100000 < start := by omega
      by_cases hfit : C < (start + L) % 2 ^ 32
      · rw [if_pos hfit] at hok
        obtain ⟨⟨k, hk⟩, h1, h2, h3⟩ := ih _ hlt s hok
        exact ⟨⟨k + 1, by omega⟩, h1, h2, h3⟩
      · rw [if_neg hfit] at hok
        by_cases hp : prep start L L = true
        · rw [if_pos hp] at hok
          have hs : start = s := by
            simpa using hok
          subst hs
          exact ⟨⟨0, by omega⟩, by omega, not_lt.mp hfit, hp⟩
        · rw [if_neg hp] at hok
          obtain ⟨⟨k, hk⟩, h1, h2, h3⟩ := ih _ hlt s hok
          exact ⟨⟨k + 1, by omega⟩, h1, h2, h3⟩

/-- The only error the search can return is outOfMemory. -/
theorem bzimage_initrd_search_err_only (prep : Nat → Nat → Nat → Bool) (L C bound : Nat) :
    ∀ start e, bzimage_initrd_search prep L C bound start = Except.error e →
      e = BzError.outOfMemory := by
  intro start
  induction start using Nat.strong_induction_on with
  | _ start ih =>
    intro e he
    rw [bzimage_initrd_search_eq] at he
    by_cases hb : start ≤ bound
    · rw [if_pos hb] at he
      simpa using he.symm
    · rw [if_neg hb] at he
      have hlt : start - 0x100000 < start := by omega
      by_cases hfit : C < (start + L) % 2 ^ 32
      · rw [if_pos hfit] at he
        exact ih _ hlt e he
      · rw [if_neg hfit] at he
        by_cases hp : prep start L L = true
        · rw [if_pos hp] at he
          exact Except.noConfusion he
        · rw [if_neg hp] at he
          exact ih _ hlt e he

/-- The search fails with outOfMemory exactly when every candidate of the
descending chain that lies strictly above the exclusion bound either does
not fit under the memory limit or fails segment preparation. -/
theorem bzimage_initrd_search_err_iff (prep : Nat → Nat → Nat → Bool) (L C bound : Nat) :
    ∀ start,
      (bzimage_initrd_search prep L C bound start = Except.error BzError.outOfMemory ↔
        ∀ k, bound < start - k * 0x100000 →
          ¬((start - k * 0x100000 + L) % 2 ^ 32 ≤ C ∧
            prep (start - k * 0x100000) L L = true)) := by
  intro start
  induction start using Nat.strong_induction_on with
  | _ start ih =>
    rw [bzimage_initrd_search_eq]
    by_cases hb : start ≤ bound
    · rw [if_pos hb]
      constructor
      · intro _ k hk
        have hle : start - k * 0x100000 ≤ start := Nat.sub_le _ _
        omega
      · intro _
        rfl
    · rw [if_neg hb]
      have hlt : start - 0x100000 < start := by omega
      by_cases hfit : C < (start + L) % 2 ^ 32
      · rw [if_pos hfit, ih _ hlt]
        constructor
        · intro h k hk
          cases k with
          | zero =>
            simp only [Nat.zero_mul, Nat.sub_zero] at hk ⊢
            intro hc
            exact absurd hc.1 (by omega)
          | succ k =>
            have he : start - (k + 1) * 0x100000 = start - 0x100000 - k * 0x100000 := by
              omega
            rw [he] at hk ⊢
            exact h k hk
        · intro h k hk
          have he : start - 0x100000 - k * 0x100000 = start - (k + 1) * 0x100000 := by
            omega
          rw [he] at hk ⊢
          exact h (k + 1) hk
      · rw [if_neg hfit]
        by_cases hp : prep start L L = true
        · rw [if_pos hp]
          constructor
          · intro h
            exact Except.noConfusion h
          · intro h
            exfalso
            have h0 := h 0 (by omega)
            simp only [Nat.zero_mul, Nat.sub_zero] at h0
            exact h0 ⟨not_lt.mp hfit, hp⟩
        · rw [if_neg hp, ih _ hlt]
          constructor
          · intro h k hk
            cases k with
            | zero =>
              simp only [Nat.zero_mul, Nat.sub_zero] at hk ⊢
              intro hc
              exact absurd hc.2 hp
            | succ k =>
              have he : start - (k + 1) * 0x100000 = start - 0x100000 - k * 0x100000 := by
                omega
              rw [he] at hk ⊢
              exact h k hk
          · intro h k hk
            have he : start - 0x100000 - k * 0x100000 = start - (k + 1) * 0x100000 := by
              omega
            rw [he] at hk ⊢
            exact h (k + 1) hk

/-- C2: for a loaded kernel with memory ceiling C and an initrd of length L
at original physical location S (with the end addresses representable in
the 32-bit address arithmetic of the code): if S + L is at most C the
relocator accepts S unchanged and performs no copy; otherwise any accepted
location is some S2 below S, reached by whole 0x100000 steps down from S,
with S2 + L at most C, S2 strictly above the exclusion bound
BZI_LOAD_HIGH_ADDR plus the kernel image length, segment preparation
succeeding at S2 and the initrd copied there; and it fails with
outOfMemory, writing nothing, exactly when no candidate of that descending
chain above the exclusion bound fits and passes segment preparation. -/
theorem C2_theorem (prep : Nat → Nat → Nat → Bool) (imageLen : Nat)
    (exec_ctx : BzimageExecContext) (initrd : Image)
    (h32 : initrd.phys + initrd.len < 2 ^ 32)
    (hb32 : BZI_LOAD_HIGH_ADDR + imageLen < 2 ^ 32) :
    (initrd.phys + initrd.len ≤ exec_ctx.mem_limit →
      bzimage_load_initrd prep imageLen exec_ctx initrd =
        (Except.ok
          { exec_ctx with ramdisk_image := initrd.phys, ramdisk_size := initrd.len },
          [])) ∧
    (exec_ctx.mem_limit < initrd.phys + initrd.len →
      ∀ ctx2 effs,
        bzimage_load_initrd prep imageLen exec_ctx initrd = (Except.ok ctx2, effs) →
        ∃ k, 1 ≤ k ∧ ctx2.ramdisk_image = initrd.phys - k * 0x100000 ∧
          ctx2.ramdisk_image < initrd.phys ∧
          ctx2.ramdisk_image + initrd.len ≤ exec_ctx.mem_limit ∧
          BZI_LOAD_HIGH_ADDR + imageLen < ctx2.ramdisk_image ∧
          prep ctx2.ramdisk_image initrd.len initrd.len = true ∧
          ctx2.ramdisk_size = initrd.len ∧
          effs = [Effect.prepSeg ctx2.ramdisk_image initrd.len initrd.len,
                  Effect.copyInitrd ctx2.ramdisk_image initrd.len]) ∧
    (exec_ctx.mem_limit < initrd.phys + initrd.len →
      (bzimage_load_initrd prep imageLen exec_ctx initrd =
          (Except.error BzError.outOfMemory, []) ↔
        ∀ k, BZI_LOAD_HIGH_ADDR + imageLen < initrd.phys - k * 0x100000 →
          ¬(initrd.phys - k * 0x100000 + initrd.len ≤ exec_ctx.mem_limit ∧
            prep (initrd.phys - k * 0x100000) initrd.len initrd.len = true))) := by
  have hmodSL : (initrd.phys + initrd.len) % 2 ^ 32 = initrd.phys + initrd.len :=
    Nat.mod_eq_of_lt h32
  have hmodB : (BZI_LOAD_HIGH_ADDR + imageLen) % 2 ^ 32 = BZI_LOAD_HIGH_ADDR + imageLen :=
    Nat.mod_eq_of_lt hb32
  have hmodx : ∀ x, x ≤ initrd.phys → (x + initrd.len) % 2 ^ 32 = x + initrd.len := by
    intro x hx
    exact Nat.mod_eq_of_lt (by omega)
  refine ⟨?_, ?_, ?_⟩
  · intro hle
    simp only [bzimage_load_initrd]
    rw [hmodSL, if_pos hle]
  · intro hgt ctx2 effs heq
    simp only [bzimage_load_initrd] at heq
    rw [hmodSL, if_neg (not_le.mpr hgt)] at heq
    cases hsr : bzimage_initrd_search prep initrd.len exec_ctx.mem_limit
        ((BZI_LOAD_HIGH_ADDR + imageLen) % 2 ^ 32) initrd.phys with
    | error e =>
      rw [hsr] at heq
      simp at heq
    | ok s =>
      rw [hsr] at heq
      simp only [Prod.mk.injEq, Except.ok.injEq] at heq
      obtain ⟨hctx, heffs⟩ := heq
      obtain ⟨⟨k, hk⟩, hbnd, hfit, hprep⟩ :=
        bzimage_initrd_search_ok_spec prep initrd.len exec_ctx.mem_limit
          ((BZI_LOAD_HIGH_ADDR + imageLen) % 2 ^ 32) initrd.phys s hsr
    
      rw [hmodB] at hbnd
      have hsle : s ≤ initrd.phys := by omega
      rw [hmodx s hsle] at hfit
      have hslt : s < initrd.phys := by omega
      have hk1 : 1 ≤ k := by
        rcases Nat.eq_zero_or_pos k with hk0 | hk0
        · omega
        · exact hk0
      subst hctx
      exact ⟨k, hk1, by simpa using hk, by simpa using hslt, by simpa using hfit,
        by simpa using hbnd, by simpa using hprep, rfl, heffs.symm⟩
  · intro hgt
    simp only [bzimage_load_initrd]
    rw [hmodSL, if_neg (not_le.mpr hgt)]
    constructor
    · intro heq k hk
      cases hsr : bzimage_initrd_search prep initrd.len exec_ctx.mem_limit
          ((BZI_LOAD_HIGH_ADDR + imageLen) % 2 ^ 32) initrd.phys with
      | ok s =>
        rw [hsr] at heq
        simp at heq
      | error e =>
        have he := bzimage_initrd_search_err_only prep initrd.len exec_ctx.mem_limit
          ((BZI_LOAD_HIGH_ADDR + imageLen) % 2 ^ 32) initrd.phys e hsr
        subst he
        have hall := (bzimage_initrd_search_err_iff prep initrd.len exec_ctx.mem_limit
          ((BZI_LOAD_HIGH_ADDR + imageLen) % 2 ^ 32) initrd.phys).mp hsr
        have hx := hall k (by rw [hmodB]; exact hk)
        rw [hmodx (initrd.phys - k * 0x100000) (Nat.sub_le _ _)] at hx
        exact hx
    · intro hall
      have hsr : bzimage_initrd_search prep initrd.len exec_ctx.mem_limit
          ((BZI_LOAD_HIGH_ADDR + imageLen) % 2 ^ 32) initrd.phys =
          Except.error BzError.outOfMemory := by
        rw [bzimage_initrd_search_err_iff]
        intro k hk
        rw [hmodB] at hk
        rw [hmodx (initrd.phys - k * 0x100000) (Nat.sub_le _ _)]
        exact hall k hk
      rw [hsr]

/-- Witness for C2: a concrete in-place acceptance, an initrd of length
0x100 at physical 0x100 under the default ceiling with no copy performed. -/
theorem C2_witness :
    bzimage_load_initrd (fun _ _ _ => true) 0
        { rm_kernel_seg := 0, rm_kernel := 0, rm_heap := 0, rm_cmdline := 0,
          vid_mode := 0, mem_limit := 0x38000000, ramdisk_image := 0, ramdisk_size := 0 }
        { data := [], len := 0x100, phys := 0x100, cmdline := none,
          typ := some ImageTypeTag.initrd, priv := 0 } =
      (Except.ok
        { rm_kernel_seg := 0, rm_kernel := 0, rm_heap := 0, rm_cmdline := 0,
          vid_mode := 0, mem_limit := 0x38000000, ramdisk_image := 0x100,
          ramdisk_size := 0x100 }, []) := by
  have h := (C2_theorem (fun _ _ _ => true) 0
      { rm_kernel_seg := 0, rm_kernel := 0, rm_heap := 0, rm_cmdline := 0,
        vid_mode := 0, mem_limit := 0x38000000, ramdisk_image := 0, ramdisk_size := 0 }
      { data := [], len := 0x100, phys := 0x100, cmdline := none,
        typ := some ImageTypeTag.initrd, priv := 0 }
      (by decide) (by decide)).1 (by decide)
  simpa using h

/-- C6 (amended): when the initrd does not fit in place, the relocator
resolves the placement exactly by the descending search started at the
original location of the initrd buffer (not at the ceiling), with the
memory ceiling as the fit limit and BZI_LOAD_HIGH_ADDR plus the kernel
image length (32-bit sum) as the exclusion bound; every address that
search accepts is a whole number of 0x100000 steps below the original
location, above the bound, fitting under the ceiling and passing segment
preparation; and it fails with outOfMemory exactly when every candidate of
the chain above the bound fails the fit or the preparation. -/
theorem C6_theorem (prep : Nat → Nat → Nat → Bool) (imageLen : Nat)
    (exec_ctx : BzimageExecContext) (initrd : Image)
    (hgt : exec_ctx.mem_limit < (initrd.phys + initrd.len) % 2 ^ 32) :
    ((bzimage_load_initrd prep imageLen exec_ctx initrd).1 =
      Except.map
        (fun s => { exec_ctx with ramdisk_image := s, ramdisk_size := initrd.len })
        (bzimage_initrd_search prep initrd.len exec_ctx.mem_limit
          ((BZI_LOAD_HIGH_ADDR + imageLen) % 2 ^ 32) initrd.phys)) ∧
    (∀ s, bzimage_initrd_search prep initrd.len exec_ctx.mem_limit
        ((BZI_LOAD_HIGH_ADDR + imageLen) % 2 ^ 32) initrd.phys = Except.ok s →
      (∃ k, s = initrd.phys - k * 0x100000) ∧
        (BZI_LOAD_HIGH_ADDR + imageLen) % 2 ^ 32 < s ∧
        (s + initrd.len) % 2 ^ 32 ≤ exec_ctx.mem_limit ∧
        prep s initrd.len initrd.len = true) ∧
    (bzimage_initrd_search prep initrd.len exec_ctx.mem_limit
        ((BZI_LOAD_HIGH_ADDR + imageLen) % 2 ^ 32) initrd.phys =
        Except.error BzError.outOfMemory ↔
      ∀ k, (BZI_LOAD_HIGH_ADDR + imageLen) % 2 ^ 32 < initrd.phys - k * 0x100000 →
        ¬((initrd.phys - k * 0x100000 + initrd.len) % 2 ^ 32 ≤ exec_ctx.mem_limit ∧
          prep (initrd.phys - k * 0x100000) initrd.len initrd.len = true)) := by
  refine ⟨?_, ?_, ?_⟩
  · simp only [bzimage_load_initrd]
    rw [if_neg (not_le.mpr hgt)]
    cases bzimage_initrd_search prep initrd.len exec_ctx.mem_limit
        ((BZI_LOAD_HIGH_ADDR + imageLen) % 2 ^ 32) initrd.phys with
    | error e => rfl
    | ok s => rfl
  · intro s hs
    exact bzimage_initrd_search_ok_spec prep initrd.len exec_ctx.mem_limit
      ((BZI_LOAD_HIGH_ADDR + imageLen) % 2 ^ 32) initrd.phys s hs
  · exact bzimage_initrd_search_err_iff prep initrd.len exec_ctx.mem_limit
      ((BZI_LOAD_HIGH_ADDR + imageLen) % 2 ^ 32) initrd.phys

/-- Counterexample to C6 as stated: with ceiling 0x1000000, an initrd of
length 0xC00000 whose buffer sits at 0x500123 and permissive segment
preparation, the relocator chooses 0x300123, an address that is not
reachable from the ceiling by 0x100000 steps: the search descends from the
original buffer location, not from the ceiling. -/
theorem C6_counterexample :
    ((bzimage_load_initrd (fun _ _ _ => true) 0
        { rm_kernel_seg := 0, rm_kernel := 0, rm_heap := 0, rm_cmdline := 0,
          vid_mode := 0, mem_limit := 0x1000000, ramdisk_image := 0, ramdisk_size := 0 }
        { data := [], len := 0xC00000, phys := 0x500123, cmdline := none,
          typ := some ImageTypeTag.initrd, priv := 0 }).1 =
      Except.ok
        { rm_kernel_seg := 0, rm_kernel := 0, rm_heap := 0, rm_cmdline := 0,
          vid_mode := 0, mem_limit := 0x1000000, ramdisk_image := 0x300123,
          ramdisk_size := 0xC00000 }) ∧
    (0x1000000 : Nat) < 0x500123 + 0xC00000 ∧
    ¬ ∃ k : Nat, (0x300123 : Nat) = 0x1000000 - k * 0x100000 := by
  refine ⟨by decide, by decide, ?_⟩
  rintro ⟨k, hk⟩
  have hdvd : (0x100000 : Nat) ∣ 0x1000000 - k * 0x100000 :=
    Nat.dvd_sub' ⟨0x10, by norm_num⟩ (dvd_mul_left 0x100000 k)
  rw [← hk] at hdvd
  rcases hdvd with ⟨c, hc⟩
  omega

/-- Witness for C6: a concrete relocation failure, with segment
preparation refusing every candidate, resolved through the theorem. -/
theorem C6_witness :
    (bzimage_load_initrd (fun _ _ _ => false) 560
        { rm_kernel_seg := 0, rm_kernel := 0, rm_heap := 0, rm_cmdline := 0,
          vid_mode := 0, mem_limit := 0x38000000, ramdisk_image := 0, ramdisk_size := 0 }
        { data := [], len := 0x38000000, phys := 0x300000, cmdline := none,
          typ := some ImageTypeTag.initrd, priv := 0 }).1 =
      Except.error BzError.outOfMemory := by
  have h := C6_theorem (fun _ _ _ => false) 560
    { rm_kernel_seg := 0, rm_kernel := 0, rm_heap := 0, rm_cmdline := 0,
      vid_mode := 0, mem_limit := 0x38000000, ramdisk_image := 0, ramdisk_size := 0 }
    { data := [], len := 0x38000000, phys := 0x300000, cmdline := none,
      typ := some ImageTypeTag.initrd, priv := 0 }
    (by decide)
  rw [h.1, h.2.2.mpr ?_]
  · rfl
  · intro k hk hc
    exact Bool.noConfusion hc.2

/-- A failing bzimage_load_initrd performs no write at all: its effect
trace is empty. -/
theorem bzimage_load_initrd_err_effects (prep : Nat → Nat → Nat → Bool)
    (imageLen : Nat) (exec_ctx : BzimageExecContext) (initrd : Image) (e : BzError)
    (h : (bzimage_load_initrd prep imageLen exec_ctx initrd).1 = Except.error e) :
    (bzimage_load_initrd prep imageLen exec_ctx initrd).2 = [] := by
  simp only [bzimage_load_initrd] at h ⊢
  by_cases hle : (initrd.phys + initrd.len) % 2 ^ 32 ≤ exec_ctx.mem_limit
  · rw [if_pos hle] at h
    exact Except.noConfusion h
  · rw [if_neg hle] at h ⊢
    cases hs : bzimage_initrd_search prep initrd.len exec_ctx.mem_limit
        ((BZI_LOAD_HIGH_ADDR + imageLen) % 2 ^ 32) initrd.phys with
    | error e2 =>
      rfl
    | ok s =>
      rw [hs] at h
      exact Except.noConfusion h

/-- C5: when initrd placement fails during execute (for the first image of
initrd type in the image set), bzimage_exec returns that very error and
aborts: its effect trace contains no header write, no shutdown call and no
jump to the kernel. -/
theorem C5_theorem (prep : Nat → Nat → Nat → Bool) (image : Image)
    (images : List Image) (storedHdr : BzimageHeader) (initrd : Image) (e : BzError)
    (hfind : images.find? (fun i => decide (i.typ = some ImageTypeTag.initrd)) =
      some initrd)
    (hfail : (bzimage_load_initrd prep image.len
        (bzimage_parse_cmdline (bzimage_exec_ctx0 image storedHdr)
          (image.cmdline.getD [])) initrd).1 = Except.error e) :
    (bzimage_exec prep image images storedHdr).err = some e ∧
    (∀ a hdr, Effect.writeHeader a hdr ∉ (bzimage_exec prep image images storedHdr).effects) ∧
    Effect.shutdownCalled ∉ (bzimage_exec prep image images storedHdr).effects ∧
    (∀ cs ip sp,
      Effect.kernelJump cs ip sp ∉ (bzimage_exec prep image images storedHdr).effects) := by
  have hsnd := bzimage_load_initrd_err_effects prep image.len
    (bzimage_parse_cmdline (bzimage_exec_ctx0 image storedHdr) (image.cmdline.getD []))
    initrd e hfail
  simp only [bzimage_exec, hfind]
  cases hp : bzimage_load_initrd prep image.len
      (bzimage_parse_cmdline (bzimage_exec_ctx0 image storedHdr) (image.cmdline.getD []))
      initrd with
  | mk r effs2 =>
    rw [hp] at hfail hsnd
    simp only at hfail hsnd
    subst hfail
    subst hsnd
    refine ⟨rfl, ?_, ?_, ?_⟩ <;> simp

/-- Concrete image set for the C5 witness: a loaded kernel image of length
560 with segment base 0x1000. -/
def c5Image : Image :=
  { data := [], len := 560, phys := 0, cmdline := none,
    typ := some ImageTypeTag.bzimage, priv := 0x1000 }

/-- Concrete unplaceable initrd for the C5 witness: 0x38000000 bytes at
0x300000, which cannot fit under the default ceiling anywhere above the
exclusion bound. -/
def c5Initrd : Image :=
  { data := [], len := 0x38000000, phys := 0x300000, cmdline := none,
    typ := some ImageTypeTag.initrd, priv := 0 }

/-- Concrete stored header for the C5 witness: version 0x0200, all other
fields zero except the signature. -/
def c5StoredHdr : BzimageHeader :=
  { setup_sects := 0, root_flags := 0, syssize := 0, swap_dev := 0, ram_size := 0,
    vid_mode := 0, root_dev := 0, boot_flag := 0, jump := 0, header := BZI_SIGNATURE,
    version := 0x0200, realmode_swtch := 0, start_sys := 0, kernel_version := 0,
    type_of_loader := 0, loadflags := 0, setup_move_size := 0, code32_start := 0,
    ramdisk_image := 0, ramdisk_size := 0, bootsect_kludge := 0, heap_end_ptr := 0,
    pad1 := 0, cmd_line_ptr := 0, initrd_addr_max := 0 }

/-- Witness for C5: with segment preparation refusing every candidate, the
execute aborts with outOfMemory and its trace has no header write, no
shutdown and no jump. -/
theorem C5_witness :
    (bzimage_exec (fun _ _ _ => false) c5Image [c5Initrd] c5StoredHdr).err =
      some BzError.outOfMemory ∧
    (∀ a hdr, Effect.writeHeader a hdr ∉
      (bzimage_exec (fun _ _ _ => false) c5Image [c5Initrd] c5StoredHdr).effects) ∧
    Effect.shutdownCalled ∉
      (bzimage_exec (fun _ _ _ => false) c5Image [c5Initrd] c5StoredHdr).effects ∧
    (∀ cs ip sp, Effect.kernelJump cs ip sp ∉
      (bzimage_exec (fun _ _ _ => false) c5Image [c5Initrd] c5StoredHdr).effects) :=
  C5_theorem (fun _ _ _ => false) c5Image [c5Initrd] c5StoredHdr c5Initrd
    BzError.outOfMemory (by decide) (by decide)

/-- Spec-side shift amounts for the mem= unit suffix: the cumulative
fallthrough means g shifts by 30 bits, m by 20, k by 10 (case-insensitive),
and any other terminator, space and end of string included, shifts by 0. -/
def memShiftSpec (c : Char) : Nat :=
  if c = 'G' ∨ c = 'g' then 30
  else if c = 'M' ∨ c = 'm' then 20
  else if c = 'K' ∨ c = 'k' then 10
  else 0

/-- The fallthrough switch computes exactly the cumulative shift. -/
theorem bzimage_mem_suffix_eq (v : Nat) (c : Char) :
    bzimage_mem_suffix v c = v * 2 ^ memShiftSpec c := by
  unfold bzimage_mem_suffix memShiftSpec
  split_ifs <;> simp [Nat.shiftLeft_eq] <;> ring

/-- C3: for every command line containing a mem= token, the memory ceiling
becomes the integer parsed after the first mem= (base selected by prefix),
left-shifted by the cumulative amount of its unit suffix: 30 bits for g/G,
20 for m/M, 10 for k/K, and 0 for space, end of string or any other
(non-fatal) terminator. -/
theorem C3_theorem (exec_ctx : BzimageExecContext) (cmdline hit : List Char)
    (hfind : strstr cmdline ("mem=".data) = some hit) :
    (bzimage_parse_cmdline exec_ctx cmdline).mem_limit =
      (strtoul (hit.drop 4) 0).1 *
        2 ^ memShiftSpec ((strtoul (hit.drop 4) 0).2.headD '\x00') := by
  simp only [bzimage_parse_cmdline, hfind]
  rw [bzimage_mem_suffix_eq]

/-- Zero execution context used to witness the command-line theorems. -/
def ctxZero : BzimageExecContext :=
  { rm_kernel_seg := 0, rm_kernel := 0, rm_heap := 0, rm_cmdline := 0,
    vid_mode := 0, mem_limit := 0, ramdisk_image := 0, ramdisk_size := 0 }

/-- Witness for C3: mem=4k, mem=1m and mem=1g parsed independently yield
exactly 4096, 1048576 and 1073741824, and a strange suffix (x) leaves the
parsed value unshifted. -/
theorem C3_witness :
    (bzimage_parse_cmdline ctxZero ("mem=4k".data)).mem_limit = 4096 ∧
    (bzimage_parse_cmdline ctxZero ("mem=1m".data)).mem_limit = 1048576 ∧
    (bzimage_parse_cmdline ctxZero ("mem=1g".data)).mem_limit = 1073741824 ∧
    (bzimage_parse_cmdline ctxZero ("mem=5x quiet".data)).mem_limit = 5 := by
  refine ⟨?_, ?_, ?_, ?_⟩
  · rw [C3_theorem ctxZero ("mem=4k".data) ("mem=4k".data) (by decide)]
    decide
  · rw [C3_theorem ctxZero ("mem=1m".data) ("mem=1m".data) (by decide)]
    decide
  · rw [C3_theorem ctxZero ("mem=1g".data) ("mem=1g".data) (by decide)]
    decide
  · rw [C3_theorem ctxZero ("mem=5x quiet".data) ("mem=5x quiet".data) (by decide)]
    decide

/-- The video mode resulting from a command line whose first vga= is
followed by the remainder of hit: a full-string comparison against the
three literals, with a hexadecimal parse as the fallback. -/
theorem bzimage_parse_vid_mode (exec_ctx : BzimageExecContext)
    (cmdline hit : List Char)
    (hfind : strstr cmdline ("vga=".data) = some hit) :
    (bzimage_parse_cmdline exec_ctx cmdline).vid_mode =
      if hit.drop 4 = "normal".data then BZI_VID_MODE_NORMAL
      else if hit.drop 4 = "ext".data then BZI_VID_MODE_EXT
      else if hit.drop 4 = "ask".data then BZI_VID_MODE_ASK
      else (strtoul (hit.drop 4) 16).1 := by
  simp only [bzimage_parse_cmdline, hfind]
  cases hm : strstr cmdline ("mem=".data) <;> split_ifs <;> rfl

/-- A base-16 strtoul whose input starts (after whitespace) with a
non-hexadecimal character parses no digit and returns 0. -/
theorem strtoul_hex_nondigit (s : List Char)
    (h : 16 ≤ bz_digit_value ((s.dropWhile bz_isspace).headD '\x00')) :
    (strtoul s 16).1 = 0 := by
  simp only [strtoul]
  rw [if_neg (by norm_num : ¬(16 = 0))]
  cases hd : s.dropWhile bz_isspace with
  | nil => rfl
  | cons c t =>
    rw [hd] at h
    simp only [List.headD] at h
    simp only [strtoul_digits]
    rw [if_neg (by omega)]

/-- C9: the literals normal, ext and ask after the first vga= are
recognised only as the entire remainder of the command line; when any of
them is followed by further characters the remainder is instead parsed as
a hexadecimal number, and a remainder that is none of the literals and
starts (after whitespace) with a non-hexadecimal character yields video
mode 0. -/
theorem C9_theorem (exec_ctx : BzimageExecContext) (cmdline hit : List Char)
    (hfind : strstr cmdline ("vga=".data) = some hit) :
    (hit.drop 4 = "normal".data →
      (bzimage_parse_cmdline exec_ctx cmdline).vid_mode = BZI_VID_MODE_NORMAL) ∧
    (hit.drop 4 = "ext".data →
      (bzimage_parse_cmdline exec_ctx cmdline).vid_mode = BZI_VID_MODE_EXT) ∧
    (hit.drop 4 = "ask".data →
      (bzimage_parse_cmdline exec_ctx cmdline).vid_mode = BZI_VID_MODE_ASK) ∧
    (∀ lit c rest,
      (lit = "normal".data ∨ lit = "ext".data ∨ lit = "ask".data) →
      hit.drop 4 = lit ++ (c :: rest) →
      (bzimage_parse_cmdline exec_ctx cmdline).vid_mode =
        (strtoul (hit.drop 4) 16).1) ∧
    (hit.drop 4 ≠ "normal".data → hit.drop 4 ≠ "ext".data → hit.drop 4 ≠ "ask".data →
      16 ≤ bz_digit_value (((hit.drop 4).dropWhile bz_isspace).headD '\x00') →
      (bzimage_parse_cmdline exec_ctx cmdline).vid_mode = 0) := by
  refine ⟨?_, ?_, ?_, ?_, ?_⟩
  · intro h
    rw [bzimage_parse_vid_mode exec_ctx cmdline hit hfind, if_pos h]
  · intro h
    rw [bzimage_parse_vid_mode exec_ctx cmdline hit hfind,
        if_neg (by rw [h]; decide), if_pos h]
  · intro h
    rw [bzimage_parse_vid_mode exec_ctx cmdline hit hfind,
        if_neg (by rw [h]; decide), if_neg (by rw [h]; decide), if_pos h]
  · intro lit c rest hlit h
    rcases hlit with rfl | rfl | rfl
    · rw [bzimage_parse_vid_mode exec_ctx cmdline hit hfind,
          if_neg (by rw [h]; simp), if_neg (by rw [h]; simp),
          if_neg (by rw [h]; simp)]
    · rw [bzimage_parse_vid_mode exec_ctx cmdline hit hfind,
          if_neg (by rw [h]; simp), if_neg (by rw [h]; simp),
          if_neg (by rw [h]; simp)]
    · rw [bzimage_parse_vid_mode exec_ctx cmdline hit hfind,
          if_neg (by rw [h]; simp), if_neg (by rw [h]; simp),
          if_neg (by rw [h]; simp)]
  · intro h1 h2 h3 h4
    rw [bzimage_parse_vid_mode exec_ctx cmdline hit hfind, if_neg h1, if_neg h2,
        if_neg h3]
    exact strtoul_hex_nondigit _ h4

/-- Witness for C9: vga=normal followed by a further parameter is parsed
as hexadecimal (yielding 0 since n is not a hexadecimal digit), while
vga=ask as the entire remainder yields the enumerated ask mode. -/
theorem C9_witness :
    (bzimage_parse_cmdline ctxZero ("vga=normal quiet".data)).vid_mode = 0 ∧
    (bzimage_parse_cmdline ctxZero ("vga=ask".data)).vid_mode = BZI_VID_MODE_ASK := by
  constructor
  · exact (C9_theorem ctxZero ("vga=normal quiet".data) ("vga=normal quiet".data)
      (by decide)).2.2.2.2 (by decide) (by decide) (by decide) (by decide)
  · exact (C9_theorem ctxZero ("vga=ask".data) ("vga=ask".data)
      (by decide)).2.2.1 (by decide)

/-- C8 (amended): for a command line without interior NUL, the copy goes
to the reserved command-line offset and its byte count is exactly
min(strlen + 1, BZI_CMDLINE_SIZE); the copied bytes end with the NUL
terminator exactly when the command line is short enough not to be
truncated, and in the truncated case (strlen at least BZI_CMDLINE_SIZE)
the copied bytes are the first BZI_CMDLINE_SIZE characters and contain no
NUL terminator at all. The operation never fails. -/
theorem C8_theorem (exec_ctx : BzimageExecContext) (cmdline : List Char)
    (hnul : '\x00' ∉ cmdline) :
    ((bzimage_set_cmdline exec_ctx cmdline).1 = exec_ctx.rm_cmdline) ∧
    ((bzimage_set_cmdline exec_ctx cmdline).2.length =
      min (cmdline.length + 1) BZI_CMDLINE_SIZE) ∧
    (cmdline.length + 1 ≤ BZI_CMDLINE_SIZE →
      (bzimage_set_cmdline exec_ctx cmdline).2 = cmdline ++ ['\x00']) ∧
    (BZI_CMDLINE_SIZE ≤ cmdline.length →
      (bzimage_set_cmdline exec_ctx cmdline).2 = cmdline.take BZI_CMDLINE_SIZE ∧
      '\x00' ∉ (bzimage_set_cmdline exec_ctx cmdline).2) := by
  refine ⟨rfl, ?_, ?_, ?_⟩
  · simp only [bzimage_set_cmdline, List.length_take, List.length_append,
      List.length_singleton]
    split_ifs with h <;> omega
  · intro h
    simp only [bzimage_set_cmdline]
    rw [if_neg (by omega)]
    have hlen : (cmdline ++ ['\x00']).length = cmdline.length + 1 := by
      simp
    rw [← hlen]
    exact List.take_length _
  · intro h
    have htr : (bzimage_set_cmdline exec_ctx cmdline).2 =
        cmdline.take BZI_CMDLINE_SIZE := by
      simp only [bzimage_set_cmdline]
      rw [if_pos (by omega)]
      exact List.take_append_of_le_length h
    refine ⟨htr, ?_⟩
    rw [htr]
    intro hmem
    exact hnul (List.take_subset _ _ hmem)

/-- Counterexample to C8 as stated: a command line of 256 letters is
truncated (its strlen + 1 exceeds BZI_CMDLINE_SIZE) and the bytes actually
copied contain no NUL terminator. -/
theorem C8_counterexample :
    BZI_CMDLINE_SIZE < (List.replicate 256 'a').length + 1 ∧
    '\x00' ∉ (bzimage_set_cmdline ctxZero (List.replicate 256 'a')).2 := by
  refine ⟨by decide, by decide⟩

/-- Witness for C8: a short command line is copied whole, terminator
included, with the byte count strlen + 1. -/
theorem C8_witness :
    (bzimage_set_cmdline ctxZero ("quiet".data)).2.length =
      min (("quiet".data).length + 1) BZI_CMDLINE_SIZE ∧
    (bzimage_set_cmdline ctxZero ("quiet".data)).2 = "quiet".data ++ ['\x00'] := by
  have h := C8_theorem ctxZero ("quiet".data) (by decide)
  exact ⟨h.2.1, h.2.2.1 (by decide)⟩

/-- Builder for concrete test buffers: zeros everywhere except the setup
sector count at 0x1f1, the signature HdrS at 0x202, the version
(little-endian) at 0x206 and initrd_addr_max (little-endian) at 0x22c,
padded with pad further zero bytes past offset 0x230. -/
def mkImageData (setup verLo verHi a0 a1 a2 a3 pad : Nat) : List Nat :=
  List.replicate 0x1f1 0 ++ [setup] ++ List.replicate 16 0 ++
  [0x48, 0x64, 0x72, 0x53, verLo, verHi] ++ List.replicate 36 0 ++
  [a0, a1, a2, a3] ++ List.replicate pad 0

/-- The amended real-mode size formula, written out in plain arithmetic:
the setup sector count, with 4 substituted only when the field is zero,
plus one, times 512. -/
theorem bzimage_rm_filesz_eq (bzhdr : BzimageHeader) :
    bzimage_rm_filesz bzhdr =
      ((if bzhdr.setup_sects = 0 then 4 else bzhdr.setup_sects) + 1) * 512 := by
  unfold bzimage_rm_filesz
  rcases Nat.eq_zero_or_pos bzhdr.setup_sects with h | h
  · rw [h]
    decide
  · rw [if_pos (by omega : bzhdr.setup_sects ≠ 0), if_neg (by omega),
        Nat.shiftLeft_eq]

/-- C1 (amended): for every image whose header checks pass (length,
signature, minimum version), the computed real-mode size is
((setup_sects if nonzero else 4) + 1) * 512 -- the default 4 applies only
to a zero field, not as a maximum -- and the load fails with formatError
exactly when this size exceeds the buffer length, succeeding with that
rm_filesz otherwise. -/
theorem C1_theorem (image : Image)
    (hlen : ¬ image.len < BZI_HDR_OFFSET + BZIMAGE_HEADER_SIZE)
    (hsig : (decodeHeader image.data).header = BZI_SIGNATURE)
    (hver : ¬ (decodeHeader image.data).version < 0x0200) :
    (image.len < bzimage_rm_filesz (decodeHeader image.data) →
      bzimage_load_header image = Except.error BzError.formatError) ∧
    (bzimage_rm_filesz (decodeHeader image.data) ≤ image.len →
      ∃ ctx, bzimage_load_header image = Except.ok (ctx, decodeHeader image.data) ∧
        ctx.rm_filesz =
          ((if (decodeHeader image.data).setup_sects = 0 then 4
            else (decodeHeader image.data).setup_sects) + 1) * 512) := by
  constructor
  · intro h
    simp only [bzimage_load_header]
    rw [if_neg hlen, if_neg (not_not_intro hsig), if_neg hver, if_pos h]
  · intro h
    simp only [bzimage_load_header]
    rw [if_neg hlen, if_neg (not_not_intro hsig), if_neg hver,
        if_neg (not_lt.mpr h)]
    exact ⟨_, rfl, bzimage_rm_filesz_eq _⟩

/-- Concrete counterexample image for C1: setup_sects 1, version 0x0200,
valid signature, buffer length 2560. -/
def c1CexImage : Image :=
  { data := mkImageData 1 0 2 0 0 0 0 2000, len := 2560, phys := 0,
    cmdline := none, typ := none, priv := 0 }

/-- Counterexample to C1 as stated: with setup_sects 1 and a 2560-byte
buffer all header checks pass and the formula of the claim,
(max(setup_sects, 4) + 1) * 512 = 2560, does not exceed the buffer, so the
claim predicts success with real-mode size 2560; the code succeeds with
real-mode size 1024. -/
theorem C1_counterexample :
    (¬ c1CexImage.len < BZI_HDR_OFFSET + BZIMAGE_HEADER_SIZE) ∧
    (decodeHeader c1CexImage.data).header = BZI_SIGNATURE ∧
    (¬ (decodeHeader c1CexImage.data).version < 0x0200) ∧
    (max (decodeHeader c1CexImage.data).setup_sects 4 + 1) * 512 = 2560 ∧
    ¬ c1CexImage.len < 2560 ∧
    (bzimage_load_header c1CexImage).map (fun p => p.1.rm_filesz) =
      Except.ok 1024 ∧
    (1024 : Nat) ≠ 2560 := by
  decide

/-- Concrete witness image for C1: setup_sects 0 (so the default 4
applies), version 0x0200, valid signature, buffer length 2560. -/
def c1WitImage : Image :=
  { data := mkImageData 0 0 2 0 0 0 0 2000, len := 2560, phys := 0,
    cmdline := none, typ := none, priv := 0 }

/-- Witness for C1: the amended theorem applied to a concrete image with
setup_sects 0 yields success with real-mode size (4 + 1) * 512 = 2560. -/
theorem C1_witness :
    ∃ ctx, bzimage_load_header c1WitImage =
        Except.ok (ctx, decodeHeader c1WitImage.data) ∧
      ctx.rm_filesz =
        ((if (decodeHeader c1WitImage.data).setup_sects = 0 then 4
          else (decodeHeader c1WitImage.data).setup_sects) + 1) * 512 :=
  (C1_theorem c1WitImage (by decide) (by decide) (by decide)).2 (by decide)

/-- C4 (amended): bzimage_load_header fails with formatError exactly when
the buffer is shorter than header offset plus header size, or the
signature mismatches, or -- the case the original claim omitted -- the
header checks pass but the computed real-mode size exceeds the buffer
length (truncated setup); it fails with unsupportedVersion exactly when
the buffer is long enough, the signature is valid and the version is below
0x0200; and whenever it fails, bzimage_load returns that error with the
image untouched and an empty effect trace (no memory written). -/
theorem C4_theorem (prep : Nat → Nat → Nat → Bool) (image : Image) :
    (bzimage_load_header image = Except.error BzError.formatError ↔
      image.len < BZI_HDR_OFFSET + BZIMAGE_HEADER_SIZE ∨
      (¬ image.len < BZI_HDR_OFFSET + BZIMAGE_HEADER_SIZE ∧
        (decodeHeader image.data).header ≠ BZI_SIGNATURE) ∨
      (¬ image.len < BZI_HDR_OFFSET + BZIMAGE_HEADER_SIZE ∧
        (decodeHeader image.data).header = BZI_SIGNATURE ∧
        ¬ (decodeHeader image.data).version < 0x0200 ∧
        image.len < bzimage_rm_filesz (decodeHeader image.data))) ∧
    (bzimage_load_header image = Except.error BzError.unsupportedVersion ↔
      ¬ image.len < BZI_HDR_OFFSET + BZIMAGE_HEADER_SIZE ∧
      (decodeHeader image.data).header = BZI_SIGNATURE ∧
      (decodeHeader image.data).version < 0x0200) ∧
    (∀ e, bzimage_load_header image = Except.error e →
      bzimage_load prep image = (image, [], Except.error e)) := by
  refine ⟨?_, ?_, fun e he => by simp only [bzimage_load, he]⟩ <;>
  · by_cases h1 : image.len < BZI_HDR_OFFSET + BZIMAGE_HEADER_SIZE <;>
    by_cases h2 : (decodeHeader image.data).header = BZI_SIGNATURE <;>
    by_cases h3 : (decodeHeader image.data).version < 0x0200 <;>
    by_cases h4 : image.len < bzimage_rm_filesz (decodeHeader image.data) <;>
    simp [bzimage_load_header, h1, h2, h3, h4]

/-- Concrete counterexample image for C4: setup_sects 0, version 0x0200,
valid signature, buffer of exactly header offset plus header size. -/
def c4CexImage : Image :=
  { data := mkImageData 0 0 2 0 0 0 0 0, len := 560, phys := 0,
    cmdline := none, typ := none, priv := 0 }

/-- Counterexample to C4 as stated: a 560-byte buffer with valid signature
and version fails with formatError (its real-mode portion, 2560 bytes,
exceeds the buffer), although neither of the two conditions the claim
allows for formatError holds. -/
theorem C4_counterexample :
    bzimage_load_header c4CexImage = Except.error BzError.formatError ∧
    (¬ c4CexImage.len < BZI_HDR_OFFSET + BZIMAGE_HEADER_SIZE) ∧
    (decodeHeader c4CexImage.data).header = BZI_SIGNATURE := by
  decide

/-- Witness for C4: the amended characterisation applied to the empty
buffer, which is too short and is rejected with formatError. -/
theorem C4_witness :
    bzimage_load_header
        { data := [], len := 0, phys := 0, cmdline := none, typ := none,
          priv := 0 } = Except.error BzError.formatError :=
  (C4_theorem (fun _ _ _ => true)
    { data := [], len := 0, phys := 0, cmdline := none, typ := none,
      priv := 0 }).1.mpr (Or.inl (by decide))

/-- C10: once the header has parsed, bzimage_load binds the bzImage type to
a previously untyped image before loading any segment; if either segment
preparation then fails, the error (a segment error) is returned with the
type binding already in place and persisting, while the private-data slot
keeps its old value -- the real-mode segment base is recorded there only
on full success. -/
theorem C10_theorem (prep : Nat → Nat → Nat → Bool) (image : Image)
    (p : BzimageLoadContext × BzimageHeader)
    (hok : bzimage_load_header image = Except.ok p)
    (htyp : image.typ = none) :
    (∀ e, (bzimage_load prep image).2.2 = Except.error e →
      e = BzError.segmentError ∧
      (bzimage_load prep image).1.typ = some ImageTypeTag.bzimage ∧
      (bzimage_load prep image).1.priv = image.priv) ∧
    (∀ lr, (bzimage_load prep image).2.2 = Except.ok lr →
      (bzimage_load prep image).1.typ = some ImageTypeTag.bzimage ∧
      (bzimage_load prep image).1.priv = lr.ctx.rm_kernel_seg) := by
  obtain ⟨ctx0, bzhdr⟩ := p
  simp only [bzimage_load, hok, if_pos htyp]
  cases hr : bzimage_load_real prep image ctx0 with
  | error e1 =>
    have he1 : e1 = BzError.segmentError := by
      simp only [bzimage_load_real] at hr
      split_ifs at hr <;>
        first
          | exact Except.noConfusion hr
          | simpa using hr.symm
    subst he1
    dsimp only
    constructor
    · intro e he
      have he2 : BzError.segmentError = e := by simpa using he
      exact ⟨he2.symm, rfl, rfl⟩
    · intro lr hlr
      exact Except.noConfusion hlr
  | ok pr =>
    obtain ⟨ctx1, effsRM⟩ := pr
    dsimp only
    cases hn : bzimage_load_non_real prep image ctx1 with
    | error e2 =>
      have he2 : e2 = BzError.segmentError := by
        simp only [bzimage_load_non_real] at hn
        split_ifs at hn <;>
          first
            | exact Except.noConfusion hn
            | simpa using hn.symm
      subst he2
      dsimp only
      constructor
      · intro e he
        have he3 : BzError.segmentError = e := by simpa using he
        exact ⟨he3.symm, rfl, rfl⟩
      · intro lr hlr
        exact Except.noConfusion hlr
    | ok effsPM =>
      dsimp only
      constructor
      · intro e he
        exact Except.noConfusion he
      · intro lr hlr
        have hlr2 :
            ({ ctx := ctx1, storedHdr := (bzimage_write_header ctx1 bzhdr).1 } :
              LoadResult) = lr := by
          simpa using hlr
        rw [← hlr2]
        exact ⟨rfl, rfl⟩

/-- Concrete witness image for C10: untyped, private data 7, valid header
with setup_sects 0 and a 2560-byte buffer. -/
def c10WitImage : Image :=
  { data := mkImageData 0 0 2 0 0 0 0 2000, len := 2560, phys := 0,
    cmdline := none, typ := none, priv := 7 }

/-- Witness for C10: with segment preparation always refusing, the load
fails with a segment error, yet the image now carries the bzImage type
binding, and its private data slot still holds the old value 7. -/
theorem C10_witness :
    (bzimage_load (fun _ _ _ => false) c10WitImage).2.2 =
      Except.error BzError.segmentError ∧
    (bzimage_load (fun _ _ _ => false) c10WitImage).1.typ =
      some ImageTypeTag.bzimage ∧
    (bzimage_load (fun _ _ _ => false) c10WitImage).1.priv = c10WitImage.priv := by
  have h := C10_theorem (fun _ _ _ => false) c10WitImage
    (⟨0x1000, 0x10000, 2560, 0, 0, 2560, 0x10000, 0⟩,
      decodeHeader c10WitImage.data)
    (by decide) rfl
  have h2 := h.1 BzError.segmentError (by decide)
  exact ⟨by decide, h2.2.1, h2.2.2⟩

/-- The load-time header rewrite leaves the video mode, the version and
the maximum initrd address untouched. -/
theorem bzimage_write_header_preserves (load_ctx : BzimageLoadContext)
    (bzhdr : BzimageHeader) :
    (bzimage_write_header load_ctx bzhdr).1.vid_mode = bzhdr.vid_mode ∧
    (bzimage_write_header load_ctx bzhdr).1.version = bzhdr.version ∧
    (bzimage_write_header load_ctx bzhdr).1.initrd_addr_max =
      bzhdr.initrd_addr_max := by
  simp only [bzimage_write_header]
  split_ifs <;> exact ⟨rfl, rfl, rfl⟩

/-- A successful bzimage_load_header returns the decoded header of the
image buffer. -/
theorem bzimage_load_header_ok_hdr (image : Image)
    (p : BzimageLoadContext × BzimageHeader)
    (h : bzimage_load_header image = Except.ok p) :
    p.2 = decodeHeader image.data := by
  simp only [bzimage_load_header] at h
  split_ifs at h <;>
    first
      | exact Except.noConfusion h
      | (injection h with h2
         rw [← h2])

/-- Parsing the empty command line changes nothing. -/
theorem bzimage_parse_cmdline_nil (exec_ctx : BzimageExecContext) :
    bzimage_parse_cmdline exec_ctx [] = exec_ctx := rfl

/-- A successful bzimage_load stores a header whose video mode, version
and maximum initrd address are those of the original decoded header, and
leaves the command line of the image unchanged. -/
theorem bzimage_load_ok_inv (prep : Nat → Nat → Nat → Bool) (image img2 : Image)
    (effs : List Effect) (lr : LoadResult)
    (h : bzimage_load prep image = (img2, effs, Except.ok lr)) :
    lr.storedHdr.vid_mode = (decodeHeader image.data).vid_mode ∧
    lr.storedHdr.version = (decodeHeader image.data).version ∧
    lr.storedHdr.initrd_addr_max = (decodeHeader image.data).initrd_addr_max ∧
    img2.cmdline = image.cmdline := by
  cases hh : bzimage_load_header image with
  | error e =>
    simp only [bzimage_load, hh] at h
    simp at h
  | ok p =>
    have hdr2 := bzimage_load_header_ok_hdr image p hh
    obtain ⟨ctx0, bzhdr⟩ := p
    simp only at hdr2
    subst hdr2
    simp only [bzimage_load, hh] at h
    cases hr : bzimage_load_real prep image ctx0 with
    | error e1 =>
      rw [hr] at h
      simp at h
    | ok pr =>
      obtain ⟨ctx1, effsRM⟩ := pr
      rw [hr] at h
      dsimp only at h
      cases hn : bzimage_load_non_real prep image ctx1 with
      | error e2 =>
        rw [hn] at h
        simp at h
      | ok effsPM =>
        rw [hn] at h
        dsimp only at h
        simp only [Prod.mk.injEq, Except.ok.injEq] at h
        obtain ⟨h1, h2, h3⟩ := h
        subst h3
        obtain ⟨hv, hver, hmax⟩ :=
          bzimage_write_header_preserves ctx1 (decodeHeader image.data)
        refine ⟨hv, hver, hmax, ?_⟩
        rw [← h1]
        by_cases ht : image.typ = none
        · rw [if_pos ht]
        · rw [if_neg ht]

/-- C7 (amended): loading an image successfully and then executing it with
an empty command line and no initrd image present produces an execution
context whose video mode is the original vid_mode of the header and whose
memory ceiling is (initrd_addr_max + 1) computed in 32-bit arithmetic
(that is, mod 2 ^ 32) when the version is at least 0x0203, and
BZI_INITRD_MAX + 1 otherwise. -/
theorem C7_theorem (prep prep2 : Nat → Nat → Nat → Bool) (image img2 : Image)
    (effs : List Effect) (lr : LoadResult) (images : List Image)
    (hload : bzimage_load prep image = (img2, effs, Except.ok lr))
    (hcmd : image.cmdline = none)
    (hnoinitrd : images.find?
      (fun i => decide (i.typ = some ImageTypeTag.initrd)) = none) :
    (bzimage_exec prep2 img2 images lr.storedHdr).ctx.vid_mode =
      (decodeHeader image.data).vid_mode ∧
    (bzimage_exec prep2 img2 images lr.storedHdr).ctx.mem_limit =
      (if 0x0203 ≤ (decodeHeader image.data).version then
        ((decodeHeader image.data).initrd_addr_max + 1) % 2 ^ 32
      else BZI_INITRD_MAX + 1) := by
  obtain ⟨hvid, hver, hmax, hcmdline⟩ := bzimage_load_ok_inv prep image img2 effs lr hload
  have hc2 : img2.cmdline = none := by rw [hcmdline, hcmd]
  simp only [bzimage_exec, hnoinitrd, hc2, Option.getD_none,
    bzimage_parse_cmdline_nil]
  simp only [bzimage_exec_ctx0]
  exact ⟨hvid, by rw [hver, hmax]⟩

/-- Concrete counterexample image for C7: version 0x0203, initrd_addr_max
0xffffffff, setup_sects 1, 2560-byte buffer with valid signature. -/
def c7CexImage : Image :=
  { data := mkImageData 1 3 2 0xff 0xff 0xff 0xff 2000, len := 2560, phys := 0,
    cmdline := none, typ := none, priv := 0 }

/-- Counterexample to C7 as stated: a loaded image with version 0x0203 and
initrd_addr_max 0xffffffff, executed with no command line and no initrd,
yields memory ceiling 0 (the uint32 sum initrd_addr_max + 1 wraps), not
initrd_addr_max + 1 = 0x100000000 as the claim reads. -/
theorem C7_counterexample :
    (match (bzimage_load (fun _ _ _ => true) c7CexImage).2.2 with
      | Except.ok lr =>
        (bzimage_exec (fun _ _ _ => true)
          (bzimage_load (fun _ _ _ => true) c7CexImage).1 []
          lr.storedHdr).ctx.mem_limit
      | Except.error _ => 1) = 0 ∧
    0x0203 ≤ (decodeHeader c7CexImage.data).version ∧
    (decodeHeader c7CexImage.data).initrd_addr_max + 1 = 0x100000000 ∧
    (0 : Nat) ≠ 0x100000000 := by
  decide

/-- Concrete witness image for C7: version 0x0203, initrd_addr_max
0x08000000, setup_sects 1, a 560-byte buffer (length field 1024) with
valid signature. -/
def c7WitImage : Image :=
  { data := mkImageData 1 3 2 0 0 0 8 0, len := 1024, phys := 0,
    cmdline := none, typ := none, priv := 0 }

/-- The image object produced by loading the C7 witness image: the bzImage
type bound and the real-mode segment 0x1000 recorded. -/
def c7WitLoadedImage : Image :=
  { data := mkImageData 1 3 2 0 0 0 8 0, len := 1024, phys := 0,
    cmdline := none, typ := some ImageTypeTag.bzimage, priv := 0x1000 }

/-- The header stored in the loaded segment for the C7 witness image. -/
def c7WitStored : BzimageHeader :=
  { setup_sects := 1, root_flags := 0, syssize := 0, swap_dev := 0, ram_size := 0,
    vid_mode := 0, root_dev := 0, boot_flag := 0, jump := 0, header := 0x53726448,
    version := 0x0203, realmode_swtch := 0, start_sys := 0, kernel_version := 0,
    type_of_loader := 0x40, loadflags := 0x80, setup_move_size := 0,
    code32_start := 0, ramdisk_image := 0, ramdisk_size := 0, bootsect_kludge := 0,
    heap_end_ptr := 4608, pad1 := 0, cmd_line_ptr := 70656,
    initrd_addr_max := 0x08000000 }

/-- The load context produced by loading the C7 witness image. -/
def c7WitCtx : BzimageLoadContext :=
  { rm_kernel_seg := 0x1000, rm_kernel := 0x10000, rm_filesz := 1024,
    rm_heap := 5120, rm_cmdline := 5120, rm_memsz := 5376, pm_kernel := 0x10000,
    pm_sz := 0 }

/-- Witness for C7: the amended round trip at a concrete image with
version 0x0203 and initrd_addr_max 0x08000000, giving video mode 0 (the
original header value) and memory ceiling 0x08000001. -/
theorem C7_witness :
    (bzimage_exec (fun _ _ _ => true) c7WitLoadedImage [] c7WitStored).ctx.vid_mode =
      (decodeHeader c7WitImage.data).vid_mode ∧
    (bzimage_exec (fun _ _ _ => true) c7WitLoadedImage [] c7WitStored).ctx.mem_limit =
      0x08000001 := by
  have h := C7_theorem (fun _ _ _ => true) (fun _ _ _ => true) c7WitImage
    c7WitLoadedImage
    [Effect.prepSeg 65536 1024 5376, Effect.copyRM 65536 1024,
     Effect.prepSeg 65536 0 0, Effect.copyPM 65536 0,
     Effect.writeHeader 66033 c7WitStored]
    { ctx := c7WitCtx, storedHdr := c7WitStored } [] (by decide) rfl rfl
  exact ⟨h.1, by rw [h.2]; decide⟩
